import Mathlib

/-!
Verification of the registration-dashboard logic of this repository: the
in-memory search/department filter, client-side pagination, photo and
mobile-number validation, the delete/update handlers of the admin
dashboard, the spreadsheet export, and the file-upload change handler.
Pure functions are translated directly; the stateful registrations table
becomes an explicit state type with a step function over its operations.
-/

/-- The registration record (src/unnamed/part_004, the Registration
interface and the registrations table of the migration). The gender union
type is embedded as a plain string. -/
structure Registration where
  id : String
  full_name : String
  mobile_number : String
  email : String
  gender : String
  department : String
  address : String
  photo_url : String
  created_at : String
  updated_at : String
deriving DecidableEq

/-- Embedding of the runtime lowercasing used by the filter
(toLowerCase), applied characterwise to the character data. -/
def strLower (s : String) : String := ⟨s.data.map Char.toLower⟩

/-- Helper for the substring search: does the list start with pat. -/
def leadsWith (pat l : List Char) : Bool :=
  match pat, l with
  | [], _ => true
  | _ :: _, [] => false
  | p :: ps, c :: cs => decide (p = c) && leadsWith ps cs

/-- Helper for the substring search: does pat occur contiguously in the
list. -/
def hasSubstr (pat : List Char) : List Char → Bool
  | [] => leadsWith pat []
  | c :: rest => leadsWith pat (c :: rest) || hasSubstr pat rest

/-- Embedding of the runtime substring test (String.includes) used by the
filter in RegistrationsTable.tsx. -/
def jsIncludes (s pat : String) : Bool := hasSubstr pat.data s.data

/-- The free-text part of the filter predicate
(RegistrationsTable.tsx lines 72-75): lowercased name, raw mobile number,
lowercased email, each tested for the search text as a substring. -/
def matchesSearch (search : String) (r : Registration) : Bool :=
  jsIncludes (strLower r.full_name) (strLower search)
    || jsIncludes r.mobile_number search
    || jsIncludes (strLower r.email) (strLower search)

/-- The department part of the filter predicate
(RegistrationsTable.tsx lines 77-78). -/
def matchesDepartment (departmentFilter : String) (r : Registration) : Bool :=
  decide (departmentFilter = ("all")) || decide (r.department = departmentFilter)

/-- filteredRegistrations (RegistrationsTable.tsx lines 71-81): the
conjunctive filter over the fetched record set. -/
def filteredRegistrations (registrations : List Registration)
    (search departmentFilter : String) : List Registration :=
  registrations.filter (fun r => matchesSearch search r && matchesDepartment departmentFilter r)

/-- ITEMS_PER_PAGE (RegistrationsTable.tsx line 54). -/
def ITEMS_PER_PAGE : Nat := 10

/-- totalPages (RegistrationsTable.tsx line 84): the ceiling of
filtered count over the page size, as the usual natural-number ceiling
division. -/
def totalPages (filtered : List Registration) : Nat :=
  (filtered.length + ITEMS_PER_PAGE - 1) / ITEMS_PER_PAGE

/-- paginatedRegistrations (RegistrationsTable.tsx lines 85-89):
slice(startIndex, startIndex + ITEMS_PER_PAGE) of the filtered view with
startIndex = (currentPage - 1) * ITEMS_PER_PAGE. -/
def paginatedRegistrations (filtered : List Registration) (currentPage : Nat) :
    List Registration :=
  (filtered.drop ((currentPage - 1) * ITEMS_PER_PAGE)).take ITEMS_PER_PAGE

/-- The component state of the registrations table
(RegistrationsTable.tsx lines 64-66) together with the fetched record set
held by the dashboard. -/
structure TableState where
  registrations : List Registration
  search : String
  departmentFilter : String
  currentPage : Nat

/-- The filtered view of a table state. -/
def filteredOf (st : TableState) : List Registration :=
  filteredRegistrations st.registrations st.search st.departmentFilter

/-- The operations that can change the table state: typing in the search
box (line 120-123), picking a department (lines 129-132), the clear
button (lines 104-108), the previous and next page buttons
(lines 264-282), and a successful delete (part_001 line 67). -/
inductive Op where
  | setSearchText (s : String)
  | setDepartment (d : String)
  | clearFilters
  | prevPage
  | nextPage
  | deleteReg (id : String)

/-- Every operation except a successful delete leaves the fetched record
set unchanged. -/
def Op.nonMutating : Op → Bool
  | .deleteReg _ => false
  | _ => true

/-- One step of the table state machine. The previous and next buttons
are rendered only when totalPages exceeds 1 (line 257), and clamp with
max and min exactly as the two setCurrentPage callbacks do; a delete
removes the record from the fetched set and leaves currentPage untouched. -/
def step (st : TableState) (op : Op) : TableState :=
  match op with
  | .setSearchText s => { st with search := s, currentPage := 1 }
  | .setDepartment d => { st with departmentFilter := d, currentPage := 1 }
  | .clearFilters => { st with search := (""), departmentFilter := ("all"), currentPage := 1 }
  | .prevPage =>
      if 1 < totalPages (filteredOf st) then
        { st with currentPage := max 1 (st.currentPage - 1) }
      else st
  | .nextPage =>
      if 1 < totalPages (filteredOf st) then
        { st with currentPage := min (totalPages (filteredOf st)) (st.currentPage + 1) }
      else st
  | .deleteReg id =>
      { st with registrations := st.registrations.filter (fun r => decide (r.id ≠ id)) }

/-- Run a sequence of operations. -/
def runOps (st : TableState) (ops : List Op) : TableState := ops.foldl step st

/-- The initial table state over a fetched record set: empty search, all
departments, page 1 (RegistrationsTable.tsx lines 64-66). -/
def initState (registrations : List Registration) : TableState :=
  { registrations := registrations, search := (""), departmentFilter := ("all"), currentPage := 1 }

/-- The page-bound invariant claimed for the table state. -/
def PageInv (st : TableState) : Prop :=
  1 ≤ st.currentPage ∧ st.currentPage ≤ max 1 (totalPages (filteredOf st))

/-- MAX_FILE_SIZE (validations.ts line 57). -/
def MAX_FILE_SIZE : Nat := 2 * 1024 * 1024

/-- ACCEPTED_IMAGE_TYPES (validations.ts line 58). -/
def ACCEPTED_IMAGE_TYPES : List String := ["image/jpeg", "image/jpg", "image/png"]

/-- A client-selected file: its declared media type and byte size. -/
structure PhotoFile where
  type : String
  size : Nat

/-- validatePhoto (RegistrationForm.tsx lines 44-59) on a held file:
reject a type outside ACCEPTED_IMAGE_TYPES, then reject a size above
MAX_FILE_SIZE, otherwise accept. -/
def validatePhoto (f : PhotoFile) : Bool :=
  if ¬ (f.type ∈ ACCEPTED_IMAGE_TYPES) then false
  else if f.size > MAX_FILE_SIZE then false
  else true

/-- Embedding of the runtime trim used by the validation schema: drop
whitespace from both ends of the character data. -/
def jsTrim (s : String) : String :=
  ⟨((s.data.dropWhile Char.isWhitespace).reverse.dropWhile Char.isWhitespace).reverse⟩

/-- The mobile-number regex of registrationSchema (validations.ts
line 12): exactly ten digit characters spanning the whole string. -/
def matchesTenDigitRegex (t : String) : Bool :=
  decide (t.data.length = 10) && t.data.all (fun c => c.isDigit)

/-- The mobile-number rule of registrationSchema (validations.ts
lines 9-12): trim, then match the ten-digit regex. -/
def mobileNumberValid (s : String) : Bool := matchesTenDigitRegex (jsTrim s)

/-- The stored-object path derived from a photo URL
(part_001 lines 56-57): split on slash, keep the last two segments, join
with slash. -/
def filePathOf (photoUrl : String) : String :=
  let urlParts := photoUrl.splitOn ("/")
  String.intercalate ("/") (urlParts.drop (urlParts.length - 2))

/-- Modelled from the spec: the row-deletion call of the external store,
which is an opaque service boundary absent from src. Per the spec,
deleting an already-deleted identifier reports failure (no matching row);
otherwise the matching row is removed and success is reported. -/
def dbDelete (db : List Registration) (id : String) : Except String (List Registration) :=
  if db.any (fun r => decide (r.id = id)) then
    Except.ok (db.filter (fun r => decide (r.id ≠ id)))
  else Except.error ("no matching row")

/-- The outcome of the delete workflow: the in-memory record set, the
external row set, the bucket contents, and the reported success flag. -/
structure DeleteOutcome where
  registrations : List Registration
  db : List Registration
  bucket : List String
  success : Bool

/-- handleDelete (part_001 lines 53-73): remove the derived object path
from the bucket (the result of the removal is not inspected), then issue
the row deletion; on a reported error the catch block leaves the
in-memory record set untouched and reports failure, otherwise the record
is filtered out of the in-memory set and success is reported. -/
def handleDelete (regs db : List Registration) (bucket : List String)
    (id photoUrl : String) : DeleteOutcome :=
  let filePath := filePathOf photoUrl
  let bucketAfter := bucket.filter (fun p => decide (p ≠ filePath))
  match dbDelete db id with
  | Except.error _ =>
      { registrations := regs, db := db, bucket := bucketAfter, success := false }
  | Except.ok dbAfter =>
      { registrations := regs.filter (fun r => decide (r.id ≠ id)),
        db := dbAfter, bucket := bucketAfter, success := true }

/-- The partial update built by EditModal.onSubmit (EditModal.tsx
lines 58-65): exactly the six editable fields. -/
structure UpdatePayload where
  full_name : String
  mobile_number : String
  email : String
  gender : String
  department : String
  address : String

/-- The object spread applied in handleUpdate: the six fields of the
payload overwrite the record, everything else is kept. -/
def applyUpdate (r : Registration) (d : UpdatePayload) : Registration :=
  { r with
    full_name := d.full_name, mobile_number := d.mobile_number, email := d.email,
    gender := d.gender, department := d.department, address := d.address }

/-- handleUpdate (part_001 lines 75-89), successful path: patch the
in-memory copy of the record whose id matches. -/
def handleUpdate (regs : List Registration) (id : String) (d : UpdatePayload) :
    List Registration :=
  regs.map (fun r => if r.id = id then applyUpdate r d else r)

/-- One row of the export mapping (part_001 lines 92-100): the seven
named columns built from a record. -/
structure SheetRow where
  Name : String
  Mobile : String
  Email : String
  Gender : String
  Department : String
  Address : String
  RegisteredDate : String

/-- Modelled from the spec: the opaque locale date formatting applied to
the creation timestamp; no claim depends on its output, so it is kept as
an identity on the stored timestamp string. -/
def toLocaleDateString (s : String) : String := s

/-- The per-record export row (part_001 lines 92-100). -/
def exportRow (r : Registration) : SheetRow :=
  { Name := r.full_name, Mobile := r.mobile_number, Email := r.email,
    Gender := r.gender, Department := r.department, Address := r.address,
    RegisteredDate := toLocaleDateString r.created_at }

/-- The header row of the export, the key list of the mapped objects. -/
def EXPORT_HEADER : List String :=
  ["Name", "Mobile", "Email", "Gender", "Department", "Address", "Registered Date"]

/-- The cells of one sheet row, in column order. -/
def sheetCells (x : SheetRow) : List String :=
  [x.Name, x.Mobile, x.Email, x.Gender, x.Department, x.Address, x.RegisteredDate]

/-- Modelled from the spec: json_to_sheet of the external spreadsheet
library, an opaque service boundary absent from src. Per the spec, the
sheet is the header row matching the export column list followed by one
data row per object, in order. -/
def json_to_sheet (rows : List SheetRow) : List (List String) :=
  EXPORT_HEADER :: rows.map sheetCells

/-- A workbook: named sheets of cell rows. -/
structure Workbook where
  sheets : List (String × List (List String))

/-- handleExport (part_001 lines 91-107): map the full in-memory record
set to export rows, build a single sheet named Registrations, and put it
in a fresh workbook. -/
def handleExport (registrations : List Registration) : Workbook :=
  { sheets := [(("Registrations"), json_to_sheet (registrations.map exportRow))] }

/-- The state owned by the file-upload component and its parent: the held
file (the value prop, written through onChange) and the preview. -/
structure UploadState where
  held : Option PhotoFile
  preview : Option PhotoFile

/-- handleFileChange (part_000 lines 18-40): a file with an unaccepted
type or an oversize file causes an early return, touching nothing and
calling onChange on nothing; an accepted file becomes the held file and
the preview; a null argument clears both. The second component records
whether onChange was invoked. -/
def handleFileChange (file : Option PhotoFile) (st : UploadState) : UploadState × Bool :=
  match file with
  | some f =>
      if ¬ (f.type ∈ ACCEPTED_IMAGE_TYPES) then (st, false)
      else if f.size > MAX_FILE_SIZE then (st, false)
      else ({ held := some f, preview := some f }, true)
  | none => ({ held := none, preview := none }, true)

/-- The spec-side notion of one string occurring contiguously inside
another, stated by decomposition of the character data. -/
def SubstringOf (needle hay : String) : Prop :=
  ∃ pre post, hay.data = pre ++ needle.data ++ post

/-- The spec-side case-insensitive substring notion: substring after
lowercasing both sides. -/
def CISubstringOf (needle hay : String) : Prop :=
  SubstringOf (strLower needle) (strLower hay)

/-- A concrete record used by witnesses and counterexamples. -/
def mkR (id : String) : Registration :=
  { id := id, full_name := ("n"), mobile_number := ("1"), email := ("e"),
    gender := ("male"), department := ("Engineering"), address := ("a"),
    photo_url := ("u"), created_at := ("t"), updated_at := ("t") }

/-- Eleven concrete records: two pages when filtered by nothing. -/
def regs11 : List Registration :=
  ["r0", "r1", "r2", "r3", "r4", "r5", "r6", "r7", "r8", "r9", "r10"].map mkR

/-- Twenty-five concrete records: three pages of ten. -/
def demo25 : List Registration := List.replicate 25 (mkR ("x"))

/-- A concrete payload for the update witness. -/
def payloadW : UpdatePayload :=
  { full_name := ("New Name"), mobile_number := ("9876543210"), email := ("new@e"),
    gender := ("female"), department := ("Legal"), address := ("somewhere long") }

/-- A concrete unaccepted file for the upload witness. -/
def gifF : PhotoFile := { type := ("image/gif"), size := 5 }

/-- A concrete upload state holding a previously accepted file. -/
def prevUploadSt : UploadState :=
  { held := some { type := ("image/png"), size := 5 },
    preview := some { type := ("image/png"), size := 5 } }

theorem leadsWith_iff (pat : List Char) : ∀ l : List Char,
    leadsWith pat l = true ↔ ∃ t, l = pat ++ t := by
  induction pat with
  | nil => intro l; simp [leadsWith]
  | cons p ps ih =>
    intro l
    cases l with
    | nil => simp [leadsWith]
    | cons c cs =>
      simp only [leadsWith, Bool.and_eq_true, decide_eq_true_eq, ih]
      constructor
      · rintro ⟨hpc, t, ht⟩
        exact ⟨t, by simp [hpc, ht]⟩
      · rintro ⟨t, ht⟩
        injection ht with h1 h2
        exact ⟨h1.symm, t, h2⟩

theorem hasSubstr_iff (pat : List Char) : ∀ l : List Char,
    hasSubstr pat l = true ↔ ∃ pre post, l = pre ++ pat ++ post := by
  intro l
  induction l with
  | nil =>
    simp only [hasSubstr, leadsWith_iff]
    constructor
    · rintro ⟨t, ht⟩
      rcases List.append_eq_nil.mp ht.symm with ⟨hp, htn⟩
      exact ⟨[], [], by simp [hp]⟩
    · rintro ⟨pre, post, hp⟩
      rcases List.append_eq_nil.mp (List.append_eq_nil.mp hp.symm).1 with ⟨h1, h2⟩
      exact ⟨[], by simp [h1, h2]⟩
  | cons c cs ih =>
    simp only [hasSubstr, Bool.or_eq_true, leadsWith_iff, ih]
    constructor
    · rintro (⟨t, ht⟩ | ⟨pre, post, hp⟩)
      · exact ⟨[], t, by simpa using ht⟩
      · exact ⟨c :: pre, post, by simp [hp]⟩
    · rintro ⟨pre, post, hp⟩
      cases pre with
      | nil => exact Or.inl ⟨post, by simpa using hp⟩
      | cons x xs =>
        injection hp with h1 h2
        exact Or.inr ⟨xs, post, h2⟩

theorem hasSubstr_nil_pat : ∀ l : List Char, hasSubstr [] l = true := by
  intro l
  cases l with
  | nil => rfl
  | cons c cs => simp [hasSubstr, leadsWith]

theorem pageInv_mk (st : TableState) (n : Nat) (h1 : 1 ≤ n)
    (h2 : n ≤ max 1 (totalPages (filteredOf st))) :
    PageInv { st with currentPage := n } := ⟨h1, h2⟩

theorem pageInv_step (st : TableState) (op : Op) (hInv : PageInv st)
    (hop : Op.nonMutating op = true) : PageInv (step st op) := by
  obtain ⟨h1, h2⟩ := hInv
  cases op with
  | setSearchText s =>
    exact pageInv_mk { st with search := s } 1 (le_refl 1) (le_max_left 1 _)
  | setDepartment d =>
    exact pageInv_mk { st with departmentFilter := d } 1 (le_refl 1) (le_max_left 1 _)
  | clearFilters =>
    exact pageInv_mk { st with search := (""), departmentFilter := ("all") } 1
      (le_refl 1) (le_max_left 1 _)
  | prevPage =>
    by_cases hgt : 1 < totalPages (filteredOf st)
    · have hs : step st Op.prevPage
          = { st with currentPage := max 1 (st.currentPage - 1) } := if_pos hgt
      rw [hs]
      refine pageInv_mk st (max 1 (st.currentPage - 1)) (le_max_left 1 _) ?_
      exact max_le (le_max_left 1 _) (le_trans (Nat.sub_le st.currentPage 1) h2)
    · have hs : step st Op.prevPage = st := if_neg hgt
      rw [hs]
      exact ⟨h1, h2⟩
  | nextPage =>
    by_cases hgt : 1 < totalPages (filteredOf st)
    · have hs : step st Op.nextPage
          = { st with
              currentPage := min (totalPages (filteredOf st)) (st.currentPage + 1) } :=
        if_pos hgt
      rw [hs]
      refine pageInv_mk st (min (totalPages (filteredOf st)) (st.currentPage + 1)) ?_ ?_
      · exact le_min (le_of_lt hgt) (Nat.succ_le_succ (Nat.zero_le _))
      · exact le_trans (min_le_left _ _) (le_max_right 1 _)
    · have hs : step st Op.nextPage = st := if_neg hgt
      rw [hs]
      exact ⟨h1, h2⟩
  | deleteReg id => simp [Op.nonMutating] at hop

theorem pageInv_runOps : ∀ (ops : List Op) (st : TableState), PageInv st →
    (∀ op ∈ ops, Op.nonMutating op = true) → PageInv (runOps st ops)
  | [], _, h, _ => h
  | op :: ops, st, h, hall =>
    pageInv_runOps ops (step st op)
      (pageInv_step st op h (hall op (List.mem_cons_self op ops)))
      (fun o ho => hall o (List.mem_cons_of_mem op ho))

theorem ceil_div_ten (n : Nat) : ⌈(n : ℚ) / 10⌉₊ = (n + 9) / 10 := by
  rcases Nat.eq_zero_or_pos n with h0 | hpos
  · subst h0; norm_num
  · have hne : (n + 9) / 10 ≠ 0 := by omega
    rw [Nat.ceil_eq_iff hne]
    constructor
    · rw [lt_div_iff₀ (by norm_num : (0 : ℚ) < 10)]
      exact_mod_cast (by omega : ((n + 9) / 10 - 1) * 10 < n)
    · rw [div_le_iff₀ (by norm_num : (0 : ℚ) < 10)]
      exact_mod_cast (by omega : n ≤ ((n + 9) / 10) * 10)

theorem validatePhoto_eq_true (f : PhotoFile) :
    validatePhoto f = true ↔ f.type ∈ ACCEPTED_IMAGE_TYPES ∧ f.size ≤ MAX_FILE_SIZE := by
  rw [validatePhoto]
  by_cases hm : f.type ∈ ACCEPTED_IMAGE_TYPES
  · by_cases hsz : f.size > MAX_FILE_SIZE
    · have hnle : ¬ f.size ≤ MAX_FILE_SIZE := by omega
      simp [hm, hsz, hnle]
    · have hle : f.size ≤ MAX_FILE_SIZE := by omega
      simp [hm, hsz, hle]
  · simp [hm]

/-- Claim C1: the filtered view contains exactly the records whose name,
phone or email matches the search text (name and email
case-insensitively, phone as a plain substring) and whose department
matches the selection (with all meaning no constraint), keeping the
original relative order (as a sublist of the fetched set). -/
theorem filteredRegistrations_matches_spec (regs : List Registration) (s d : String) :
    List.Sublist (filteredRegistrations regs s d) regs ∧
    ∀ r, r ∈ filteredRegistrations regs s d ↔
      (r ∈ regs ∧
        ((CISubstringOf s r.full_name ∨ SubstringOf s r.mobile_number ∨
            CISubstringOf s r.email) ∧
          (d = ("all") ∨ r.department = d))) := by
  constructor
  · exact List.filter_sublist regs
  · intro r
    rw [filteredRegistrations, List.mem_filter]
    simp only [matchesSearch, matchesDepartment, jsIncludes, Bool.and_eq_true,
      Bool.or_eq_true, decide_eq_true_eq, hasSubstr_iff,
      CISubstringOf, SubstringOf]
    rw [or_assoc]

/-- Claim C9: with an empty search text and the all department
selection, the filter is the identity on the fetched record set. -/
theorem filter_empty_search_all_identity (regs : List Registration) :
    filteredRegistrations regs ("") ("all") = regs := by
  rw [filteredRegistrations]
  apply List.filter_eq_self.mpr
  intro r _
  rw [Bool.and_eq_true]
  constructor
  · rw [matchesSearch, Bool.or_eq_true, Bool.or_eq_true]
    left; left
    rw [jsIncludes]
    have hdat : (strLower ("")).data = [] := rfl
    rw [hdat]
    exact hasSubstr_nil_pat _
  · rw [matchesDepartment, Bool.or_eq_true]
    left
    simp

/-- Claim C2 counterexample: from the initial state over eleven records
(two pages), moving to page 2 and then deleting one record leaves ten
filtered records (one page) while the page index stays at 2, above the
last page of the current filtered view. -/
theorem deleteOp_can_exceed_totalPages :
    (runOps (initState regs11) [Op.nextPage, Op.deleteReg ("r0")]).currentPage = 2 ∧
    totalPages (filteredOf (runOps (initState regs11) [Op.nextPage, Op.deleteReg ("r0")])) = 1 ∧
    totalPages (filteredOf (runOps (initState regs11) [Op.nextPage, Op.deleteReg ("r0")])) <
      (runOps (initState regs11) [Op.nextPage, Op.deleteReg ("r0")]).currentPage := by
  refine ⟨?_, ?_, ?_⟩ <;> decide

/-- Claim C2 (amended): in every state reached from the initial state by
search changes, department changes, clear, previous and next alone, the
page index lies in the interval from 1 to max 1 (ceiling of
filteredCount over 10); deleting records does not re-clamp the page
index, which can stay above the last page of the shrunken filtered view. -/
theorem currentPage_in_range_without_record_mutation (regs : List Registration)
    (ops : List Op) (h : ∀ op ∈ ops, Op.nonMutating op = true) :
    1 ≤ (runOps (initState regs) ops).currentPage ∧
    (runOps (initState regs) ops).currentPage ≤
      max 1 (totalPages (filteredOf (runOps (initState regs) ops))) :=
  pageInv_runOps ops (initState regs) ⟨le_refl 1, le_max_left 1 _⟩ h

/-- Witness for the amended claim C2 at a concrete input. -/
theorem currentPage_in_range_without_record_mutation_witness :
    (∀ op ∈ [Op.nextPage], Op.nonMutating op = true) ∧
    (1 ≤ (runOps (initState regs11) [Op.nextPage]).currentPage ∧
      (runOps (initState regs11) [Op.nextPage]).currentPage ≤
        max 1 (totalPages (filteredOf (runOps (initState regs11) [Op.nextPage])))) :=
  ⟨by decide, currentPage_in_range_without_record_mutation regs11 [Op.nextPage] (by decide)⟩

/-- Claim C3: the page count is the ceiling of the filtered length over
10, and page p holds exactly the filtered records from position
(p-1)*10+1 through min (p*10) n, expressed by the length of the slice
and a positionwise correspondence. -/
theorem paginatedRegistrations_page_contents (l : List Registration) (p : Nat)
    (hp : 1 ≤ p) :
    totalPages l = ⌈(l.length : ℚ) / 10⌉₊ ∧
    (paginatedRegistrations l p).length =
      min ITEMS_PER_PAGE (l.length - (p - 1) * ITEMS_PER_PAGE) ∧
    ∀ i, i < ITEMS_PER_PAGE →
      (paginatedRegistrations l p)[i]? = l[(p - 1) * ITEMS_PER_PAGE + i]? := by
  refine ⟨?_, ?_, ?_⟩
  · rw [ceil_div_ten, totalPages, ITEMS_PER_PAGE]
    omega
  · rw [paginatedRegistrations, List.length_take, List.length_drop]
  · intro i hi
    rw [paginatedRegistrations, List.getElem?_take_of_lt hi, List.getElem?_drop]

/-- Witness for claim C3: twenty-five records at page 3. -/
theorem paginatedRegistrations_page_contents_witness :
    1 ≤ 3 ∧
    (totalPages demo25 = ⌈(demo25.length : ℚ) / 10⌉₊ ∧
      (paginatedRegistrations demo25 3).length =
        min ITEMS_PER_PAGE (demo25.length - (3 - 1) * ITEMS_PER_PAGE) ∧
      ∀ i, i < ITEMS_PER_PAGE →
        (paginatedRegistrations demo25 3)[i]? = demo25[(3 - 1) * ITEMS_PER_PAGE + i]?) :=
  ⟨by decide, paginatedRegistrations_page_contents demo25 3 (by decide)⟩

/-- Claim C4: the photo check accepts a file exactly when its declared
media type is one of the three accepted image types and its size is at
most 2097152 bytes, the boundary being inclusive; a png exactly at the
boundary is accepted, a larger png is rejected, a gif of any size is
rejected. -/
theorem validatePhoto_accepts_iff :
    (∀ f : PhotoFile, validatePhoto f = true ↔
      ((f.type = ("image/jpeg") ∨ f.type = ("image/jpg") ∨ f.type = ("image/png")) ∧
        f.size ≤ 2097152)) ∧
    validatePhoto { type := ("image/png"), size := 2097152 } = true ∧
    validatePhoto { type := ("image/png"), size := 2202010 } = false ∧
    (∀ n : Nat, validatePhoto { type := ("image/gif"), size := n } = false) := by
  refine ⟨?_, by decide, by decide, ?_⟩
  · intro f
    rw [validatePhoto_eq_true]
    have hmax : MAX_FILE_SIZE = 2097152 := by norm_num [MAX_FILE_SIZE]
    rw [hmax, ACCEPTED_IMAGE_TYPES]
    simp only [List.mem_cons, List.not_mem_nil, or_false]
  · intro n
    have hng : ¬ (("image/gif" : String) ∈ ACCEPTED_IMAGE_TYPES) := by decide
    simp [validatePhoto, hng]

/-- Claim C5: registration validation accepts a mobile-number string
exactly when the trimmed string consists of exactly ten digit
characters; the four example strings behave as the spec states. -/
theorem mobileNumber_valid_iff_ten_digits :
    (∀ s : String, mobileNumberValid s = true ↔
      ((jsTrim s).data.length = 10 ∧ ∀ c ∈ (jsTrim s).data, c.isDigit = true)) ∧
    mobileNumberValid ("1234567890") = true ∧
    mobileNumberValid ("123456789") = false ∧
    mobileNumberValid ("12345678901") = false ∧
    mobileNumberValid ("123-456-7890") = false := by
  refine ⟨?_, by decide, by decide, by decide, by decide⟩
  intro s
  rw [mobileNumberValid, matchesTenDigitRegex, Bool.and_eq_true, decide_eq_true_eq,
    List.all_eq_true]

/-- Claim C6: when the row-deletion call reports failure, in particular
when the identifier matches no row, the whole delete operation reports
failure and the in-memory record set is unchanged, even though the
photo-object removal from the bucket was already applied. -/
theorem handleDelete_failure_leaves_registrations (regs db : List Registration)
    (bucket : List String) (id url : String)
    (hfail : (∃ e, dbDelete db id = Except.error e) ∨ (∀ r ∈ db, r.id ≠ id)) :
    (handleDelete regs db bucket id url).success = false ∧
    (handleDelete regs db bucket id url).registrations = regs ∧
    (handleDelete regs db bucket id url).bucket =
      bucket.filter (fun p => decide (p ≠ filePathOf url)) := by
  have herr : ∃ e, dbDelete db id = Except.error e := by
    rcases hfail with h | hno
    · exact h
    · refine ⟨("no matching row"), ?_⟩
      rw [dbDelete, if_neg]
      intro hany
      rcases List.any_eq_true.mp hany with ⟨r, hr, hid⟩
      exact hno r hr (of_decide_eq_true hid)
  obtain ⟨e, he⟩ := herr
  rw [handleDelete]
  simp only [he]
  simp

/-- Witness for claim C6: deleting an identifier that matches no row. -/
theorem handleDelete_failure_leaves_registrations_witness :
    ((∃ e, dbDelete [mkR ("a")] ("b") = Except.error e) ∨
      (∀ r ∈ [mkR ("a")], r.id ≠ ("b"))) ∧
    ((handleDelete [mkR ("a")] [mkR ("a")] [("x/y")] ("b") ("h/x/y")).success = false ∧
      (handleDelete [mkR ("a")] [mkR ("a")] [("x/y")] ("b") ("h/x/y")).registrations =
        [mkR ("a")] ∧
      (handleDelete [mkR ("a")] [mkR ("a")] [("x/y")] ("b") ("h/x/y")).bucket =
        [("x/y")].filter (fun p => decide (p ≠ filePathOf ("h/x/y")))) :=
  ⟨Or.inr (by decide),
    handleDelete_failure_leaves_registrations [mkR ("a")] [mkR ("a")] [("x/y")]
      ("b") ("h/x/y") (Or.inr (by decide))⟩

/-- Claim C7: a successful edit-save keyed by an identifier changes the
in-memory cache only at records with that identifier, and there only in
the six editable fields, which take the validated form values; the
identifier, photo URL and both timestamps of that record and every other
record are unchanged, and no record is added or removed. -/
theorem handleUpdate_frame (regs : List Registration) (id : String) (d : UpdatePayload)
    (i : Nat) (r r2 : Registration)
    (h1 : regs[i]? = some r) (h2 : (handleUpdate regs id d)[i]? = some r2) :
    (handleUpdate regs id d).length = regs.length ∧
    (r.id ≠ id → r2 = r) ∧
    (r.id = id →
      r2.full_name = d.full_name ∧ r2.mobile_number = d.mobile_number ∧
      r2.email = d.email ∧ r2.gender = d.gender ∧ r2.department = d.department ∧
      r2.address = d.address ∧ r2.id = r.id ∧ r2.photo_url = r.photo_url ∧
      r2.created_at = r.created_at ∧ r2.updated_at = r.updated_at) := by
  have hlen : (handleUpdate regs id d).length = regs.length := by
    rw [handleUpdate, List.length_map]
  have hmap : (handleUpdate regs id d)[i]? =
      (regs[i]?).map (fun r => if r.id = id then applyUpdate r d else r) := by
    rw [handleUpdate, List.getElem?_map]
  rw [hmap, h1] at h2
  have hr2 : r2 = if r.id = id then applyUpdate r d else r := (Option.some.inj h2).symm
  refine ⟨hlen, ?_, ?_⟩
  · intro hne
    rw [hr2, if_neg hne]
  · intro heq
    rw [hr2, if_pos heq]
    simp [applyUpdate]

/-- Witness for claim C7: two concrete records, the second one edited. -/
theorem handleUpdate_frame_witness :
    ([mkR ("a"), mkR ("b")][1]? = some (mkR ("b"))) ∧
    ((handleUpdate [mkR ("a"), mkR ("b")] ("b") payloadW)[1]? =
      some (applyUpdate (mkR ("b")) payloadW)) ∧
    ((handleUpdate [mkR ("a"), mkR ("b")] ("b") payloadW).length =
        ([mkR ("a"), mkR ("b")] : List Registration).length ∧
      ((mkR ("b")).id ≠ ("b") → applyUpdate (mkR ("b")) payloadW = mkR ("b")) ∧
      ((mkR ("b")).id = ("b") →
        (applyUpdate (mkR ("b")) payloadW).full_name = payloadW.full_name ∧
        (applyUpdate (mkR ("b")) payloadW).mobile_number = payloadW.mobile_number ∧
        (applyUpdate (mkR ("b")) payloadW).email = payloadW.email ∧
        (applyUpdate (mkR ("b")) payloadW).gender = payloadW.gender ∧
        (applyUpdate (mkR ("b")) payloadW).department = payloadW.department ∧
        (applyUpdate (mkR ("b")) payloadW).address = payloadW.address ∧
        (applyUpdate (mkR ("b")) payloadW).id = (mkR ("b")).id ∧
        (applyUpdate (mkR ("b")) payloadW).photo_url = (mkR ("b")).photo_url ∧
        (applyUpdate (mkR ("b")) payloadW).created_at = (mkR ("b")).created_at ∧
        (applyUpdate (mkR ("b")) payloadW).updated_at = (mkR ("b")).updated_at)) :=
  ⟨by decide, by decide,
    handleUpdate_frame [mkR ("a"), mkR ("b")] ("b") payloadW 1
      (mkR ("b")) (applyUpdate (mkR ("b")) payloadW) (by decide) (by decide)⟩

/-- Claim C8: exporting an empty record set yields a single-sheet
workbook holding exactly the header row; in general the single sheet is
the header row followed by one data row per record of the full in-memory
set, in fetch order. -/
theorem handleExport_rows :
    (handleExport []).sheets = [(("Registrations"), [EXPORT_HEADER])] ∧
    ∀ regs : List Registration,
      (handleExport regs).sheets =
        [(("Registrations"),
          EXPORT_HEADER :: regs.map (fun r =>
            [r.full_name, r.mobile_number, r.email, r.gender, r.department,
              r.address, toLocaleDateString r.created_at]))] := by
  constructor
  · rfl
  · intro regs
    rw [handleExport, json_to_sheet, List.map_map]
    rfl

/-- Claim C10: the file-upload change handler, given a file with an
unaccepted media type or a size above the limit, returns without
invoking onChange and without touching the held file or the preview, and
produces no error; only a null argument clears the held file and the
preview. -/
theorem handleFileChange_rejects_silently (f : PhotoFile) (st : UploadState)
    (h : ¬ (f.type ∈ ACCEPTED_IMAGE_TYPES) ∨ MAX_FILE_SIZE < f.size) :
    handleFileChange (some f) st = (st, false) ∧
    handleFileChange none st = ({ held := none, preview := none }, true) := by
  refine ⟨?_, rfl⟩
  rcases h with hty | hsz
  · rw [handleFileChange]
    simp [hty]
  · by_cases hty : f.type ∈ ACCEPTED_IMAGE_TYPES
    · rw [handleFileChange]
      simp only [hty, not_true, if_false]
      have : f.size > MAX_FILE_SIZE := hsz
      simp [this]
    · rw [handleFileChange]
      simp [hty]

/-- Witness for claim C10: a gif file against a state holding a
previously accepted png. -/
theorem handleFileChange_rejects_silently_witness :
    (¬ (gifF.type ∈ ACCEPTED_IMAGE_TYPES) ∨ MAX_FILE_SIZE < gifF.size) ∧
    (handleFileChange (some gifF) prevUploadSt = (prevUploadSt, false) ∧
      handleFileChange none prevUploadSt = ({ held := none, preview := none }, true)) :=
  ⟨Or.inl (by decide),
    handleFileChange_rejects_silently gifF prevUploadSt (Or.inl (by decide))⟩
